import Mathlib

/-!
Shallow embedding of the cart-to-order workflow of the matab e-commerce
backend (models `product.js`, `order.js`, the cart model, and the
order/cart/payment controllers), together with theorems settling the
frozen claims about it.

Modelling conventions:
* JavaScript numbers that hold money are embedded as `ℚ`; quantities are `ℤ`.
* Mongoose documents become Lean structures; the document store becomes an
  explicit `Catalog := List Product` value threaded through each operation.
* A controller action becomes a pure function from the pre-state to an
  outcome structure holding the HTTP-level result (`Except AppError _`,
  where `AppError` carries the message and status code passed to
  `next(new AppError(...))`) together with the post-state; error paths
  return the pre-state unchanged, mirroring the fact that the code returns
  before performing any write.
* `Math.random()` and `Date.now()` become explicit parameters.
-/

namespace Matab

/-- The typed error produced by `next(new AppError(message, statusCode))`. -/
structure AppError where
  message : String
  statusCode : Nat
deriving Repr, DecidableEq

/-- A catalog product document (`ProductSchema` in `models/product.js`):
identity, name, price, quantity-on-hand and status string. -/
structure Product where
  id : Nat
  name : String
  price : ℚ
  quantity : ℤ
  status : String
deriving Repr, DecidableEq

/-- The product collection. -/
abbrev Catalog := List Product

/-- `Product.findById`: first document whose id matches. -/
def findProduct (catalog : Catalog) (pid : Nat) : Option Product :=
  catalog.find? (fun p => p.id == pid)

/-- Quantity-on-hand of a product in the catalog (0 when absent). -/
def catalogQuantityOf (catalog : Catalog) (pid : Nat) : ℤ :=
  ((findProduct catalog pid).map Product.quantity).getD 0

/-- The enum of `ProductSchema.status` in `models/product.js`:
`enum: ['active', 'revoked', 'pending', 'draft']`. -/
def productStatusEnum : List String := ["active", "revoked", "pending", "draft"]

/-- Mongoose enum validation for the product status path. -/
def validProductStatus (s : String) : Bool := productStatusEnum.contains s

/-- Modelled from the spec (for comparison with `productStatusEnum`): the
status set the specification names for products,
`status ∈ {active, revoked, pending, draft, suspended}`. -/
def specProductStatusSet : List String :=
  ["active", "revoked", "pending", "draft", "suspended"]

/-- Persisting a product runs the schema validators: the `status` enum and
the `min: 0` validators on `price` and `quantity`.  A failing validator
rejects the save; a passing save stores the document unchanged. -/
def saveProduct (p : Product) : Except String Product :=
  if !validProductStatus p.status then
    .error (p.status ++ " is not a valid enum value for path status")
  else if p.price < 0 then .error "Price cannot be negative"
  else if p.quantity < 0 then .error "Quantity cannot be negative"
  else .ok p

/-- A cart line (`CartItemSchema`): live product reference plus quantity. -/
structure CartItem where
  product : Nat
  quantity : ℤ
deriving Repr, DecidableEq

/-- A user's cart (`CartSchema`): its list of lines. -/
structure Cart where
  items : List CartItem
deriving Repr, DecidableEq

/-- The `existingItem` lookup of the cart code,
`cart.items.find(item => item.product.toString() === productId.toString())`,
as it evaluates at runtime: the cart the controller works on comes from
`Cart.getOrCreate`, which runs `.populate('items.product')`, so
`item.product` is a populated mongoose document and its `toString()` is
the inspect rendering of the whole document, never the hex id string.
The comparison is therefore false for every line and the lookup finds
nothing. -/
def findExistingItem (_ : Cart) (_ : Nat) : Option CartItem := none

/-- `CartSchema.methods.addItem` as it executes on the populated cart the
controller passes it: its `existingItem` comparison is the same
populated-document `toString()` test as `findExistingItem`, so the merge
branch is dead and the method always pushes a new line (a repeat add
leaves a duplicate line for the product rather than merging). -/
def cartAddItem (cart : Cart) (pid : Nat) (qty : ℤ) : Cart :=
  { items := cart.items ++ [{ product := pid, quantity := qty }] }

/-- Persisting a cart runs the `CartItemSchema` validators
(`min: 1`, `max: 100` on each line's quantity). -/
def saveCart (c : Cart) : Except String Cart :=
  if c.items.any (fun i => i.quantity < 1) then .error "Quantity must be at least 1"
  else if c.items.any (fun i => i.quantity > 100) then .error "Quantity cannot exceed 100"
  else .ok c

/-- A shipping address; `createOrder` checks these eight fields for
truthiness, which for strings means non-emptiness. -/
structure ShippingAddress where
  firstName : String
  lastName : String
  street : String
  city : String
  state : String
  zipCode : String
  phone : String
  email : String
deriving Repr, DecidableEq

/-- The controller's completeness check on the shipping address. -/
def ShippingAddress.complete (a : ShippingAddress) : Bool :=
  a.firstName != "" && a.lastName != "" && a.street != "" && a.city != "" &&
  a.state != "" && a.zipCode != "" && a.phone != "" && a.email != ""

/-- An order line (`OrderItemSchema`): product reference with captured
quantity, price and line total. -/
structure OrderItem where
  product : Nat
  quantity : ℤ
  price : ℚ
  total : ℚ
deriving Repr, DecidableEq

/-- An order document (`OrderSchema`), with the lifecycle fields the
controllers mutate.  `deliveredAt`, `refundedAt` and `createdAt` are epoch
milliseconds. -/
structure Order where
  items : List OrderItem
  shippingAddress : ShippingAddress
  paymentMethod : String
  subtotal : ℚ
  shippingCost : ℚ
  tax : ℚ
  total : ℚ
  notes : String
  status : String
  paymentStatus : String
  paymentTransactionId : Option String
  createdAt : ℤ
  deliveredAt : Option ℤ
  refundReason : Option String
  refundedAt : Option ℤ
deriving Repr, DecidableEq

/-- The `OrderSchema.pre('save')` total validation:
`Math.abs(subtotal + shippingCost + tax - total) > 0.01` fails the save. -/
def orderTotalMismatch (o : Order) : Bool :=
  |o.subtotal + o.shippingCost + o.tax - o.total| > 1/100

/-- Persisting an order runs the pre-save total validation; a mismatch
beyond the tolerance rejects the save with the middleware's error, and a
passing save stores the document unchanged. -/
def saveOrder (o : Order) : Except String Order :=
  if orderTotalMismatch o then .error "Order total does not match calculated total"
  else .ok o

/-- Outcome of the `addToCart` controller action: HTTP result plus the
cart post-state (the catalog is never written by this action). -/
structure AddToCartOutcome where
  result : Except AppError Unit
  cart : Cart
deriving Repr

/-- `Product.findOne({_id, status: 'active', quantity: {$gt: 0}})` as used
by `addToCart`: the lookup itself filters on active status and positive
stock. -/
def findAvailableProduct (catalog : Catalog) (pid : Nat) : Option Product :=
  catalog.find? (fun p => p.id == pid && p.status == "active" && decide (p.quantity > 0))

/-- The `addToCart` controller action: validates the requested quantity,
looks the product up filtered to active status and positive stock (404
when that lookup misses), computes `currentQuantity` from the
`existingItem` lookup (which, running on the populated cart, never
matches — see `findExistingItem` — so `currentQuantity` is always 0 and
the stock check compares only the requested quantity), and otherwise
appends the line via `cartAddItem` and saves the cart. -/
def addToCart (catalog : Catalog) (cart : Cart) (productId : Nat) (quantity : ℤ) :
    AddToCartOutcome :=
  if quantity < 1 || quantity > 100 then
    ⟨.error ⟨"Quantity must be between 1 and 100", 400⟩, cart⟩
  else
    match findAvailableProduct catalog productId with
    | none => ⟨.error ⟨"Product not found or out of stock", 404⟩, cart⟩
    | some product =>
      let currentQuantity := ((findExistingItem cart productId).map CartItem.quantity).getD 0
      let newTotalQuantity := currentQuantity + quantity
      if newTotalQuantity > product.quantity then
        ⟨.error ⟨"Only " ++ toString product.quantity ++ " items available. You have " ++
                 toString currentQuantity ++ " in cart.", 400⟩, cart⟩
      else
        match saveCart (cartAddItem cart productId quantity) with
        | .error e => ⟨.error ⟨e, 500⟩, cart⟩
        | .ok saved => ⟨.ok (), saved⟩

/-- One step of the availability loop in `createOrder`: the name pushed
onto `unavailableProducts` for this cart line, or `none` when the line is
available.  A missing product contributes `'Unknown product'` (the JS
`item.product?.name || 'Unknown product'`), an inactive one its name, and
an active one with insufficient stock its name with the available
quantity. -/
def lineUnavailable (catalog : Catalog) (item : CartItem) : Option String :=
  match findProduct catalog item.product with
  | none => some "Unknown product"
  | some p =>
    if p.status != "active" then
      some (if p.name == "" then "Unknown product" else p.name)
    else if p.quantity < item.quantity then
      some (p.name ++ " (only " ++ toString p.quantity ++ " available)")
    else none

/-- The list of offending product names collected by `createOrder`. -/
def unavailableProducts (catalog : Catalog) (items : List CartItem) : List String :=
  items.filterMap (lineUnavailable catalog)

/-- Price of a product as read through the populated cart line.  Only
evaluated by `createOrder` after the availability check has established
that the product exists. -/
def priceOf (catalog : Catalog) (pid : Nat) : ℚ :=
  ((findProduct catalog pid).map Product.price).getD 0

/-- `cart.items.reduce((total, item) => total + item.product.price * item.quantity, 0)`. -/
def cartSubtotal (catalog : Catalog) (items : List CartItem) : ℚ :=
  items.foldl (fun acc item => acc + priceOf catalog item.product * (item.quantity : ℚ)) 0

/-- `subtotal > 5000 ? 0 : 200` (free shipping over 5000 PKR). -/
def shippingCostOf (subtotal : ℚ) : ℚ := if subtotal > 5000 then 0 else 200

/-- `Math.round(subtotal * 0.05)` (5% tax); `round` on `ℚ` rounds halves
up, as `Math.round` does. -/
def taxOf (subtotal : ℚ) : ℚ := ((round (subtotal * (5/100)) : ℤ) : ℚ)

/-- The `$inc: {quantity: -item.quantity}` loop `createOrder` runs over the
cart lines after saving the order. -/
def decrementQuantities (catalog : Catalog) (items : List CartItem) : Catalog :=
  items.foldl (fun cat item =>
    cat.map (fun p =>
      if p.id == item.product then { p with quantity := p.quantity - item.quantity } else p))
    catalog

/-- Outcome of the `createOrder` controller action: HTTP result plus the
catalog and cart post-states. -/
structure CreateOrderOutcome where
  result : Except AppError Order
  catalog : Catalog
  cart : Cart
deriving Repr

/-- The `createOrder` controller action: address validation, empty-cart
check, availability re-check over every line, totals computation, order
save, inventory decrement, cart clear.  All failure branches return before
any write, so they carry the pre-state unchanged. -/
def createOrder (catalog : Catalog) (cart : Cart) (shippingAddress : ShippingAddress)
    (paymentMethod : String) (notes : String) (now : ℤ) : CreateOrderOutcome :=
  if !shippingAddress.complete then
    ⟨.error ⟨"Complete shipping address is required", 400⟩, catalog, cart⟩
  else if cart.items.isEmpty then
    ⟨.error ⟨"Cart is empty", 400⟩, catalog, cart⟩
  else if unavailableProducts catalog cart.items ≠ [] then
    ⟨.error ⟨"Some products are no longer available: " ++
             String.intercalate ", " (unavailableProducts catalog cart.items), 400⟩,
     catalog, cart⟩
  else
    let subtotal := cartSubtotal catalog cart.items
    let shippingCost := shippingCostOf subtotal
    let tax := taxOf subtotal
    let total := subtotal + shippingCost + tax
    let order : Order :=
      { items := cart.items.map (fun item =>
          { product := item.product, quantity := item.quantity,
            price := priceOf catalog item.product,
            total := priceOf catalog item.product * (item.quantity : ℚ) }),
        shippingAddress := shippingAddress,
        paymentMethod := paymentMethod,
        subtotal := subtotal, shippingCost := shippingCost, tax := tax, total := total,
        notes := notes,
        status := "pending",
        paymentStatus := if paymentMethod == "cash_on_delivery" then "pending" else "pending",
        paymentTransactionId := none,
        createdAt := now, deliveredAt := none, refundReason := none, refundedAt := none }
    match saveOrder order with
    | .error e => ⟨.error ⟨e, 500⟩, catalog, cart⟩
    | .ok saved => ⟨.ok saved, decrementQuantities catalog cart.items, ⟨[]⟩⟩

/-- The `$inc: {quantity: item.quantity}` loop `cancelOrder` runs over the
order lines before saving the cancelled order. -/
def restoreQuantities (catalog : Catalog) (items : List OrderItem) : Catalog :=
  items.foldl (fun cat item =>
    cat.map (fun p =>
      if p.id == item.product then { p with quantity := p.quantity + item.quantity } else p))
    catalog

/-- Outcome of the `cancelOrder` controller action: HTTP result plus the
order and catalog post-states. -/
structure CancelOrderOutcome where
  result : Except AppError Unit
  order : Order
  catalog : Catalog
deriving Repr

/-- The `cancelOrder` controller action: only `pending` or `confirmed`
orders pass the guard; then the line quantities are restored to the
catalog and the order is saved with `status = cancelled`,
`paymentStatus = refunded`.  The restore loop runs before the save, so a
failing save still leaves the quantities restored while the stored order
is unchanged. -/
def cancelOrder (catalog : Catalog) (order : Order) : CancelOrderOutcome :=
  if !(["pending", "confirmed"].contains order.status) then
    ⟨.error ⟨"Order cannot be cancelled at this stage", 400⟩, order, catalog⟩
  else
    let restored := restoreQuantities catalog order.items
    match saveOrder { order with status := "cancelled", paymentStatus := "refunded" } with
    | .error e => ⟨.error ⟨e, 500⟩, order, restored⟩
    | .ok saved => ⟨.ok (), saved, restored⟩

/-- The `paymentDetails` object of a `processPayment` request. -/
structure PaymentDetails where
  cardNumber : String
  cvv : String
deriving Repr, DecidableEq

/-- The simulated gateway result the controller builds per method. -/
structure PaymentSimResult where
  success : Bool
  transactionId : Option String
  message : String
deriving Repr, DecidableEq

/-- Outcome of the `processPayment` controller action: either a typed
error, or the simulated result (whose `success` field distinguishes the
200 paid response from the 400 declined response), plus the order
post-state. -/
structure ProcessPaymentOutcome where
  result : Except AppError PaymentSimResult
  order : Order
deriving Repr

/-- The JS optional chain `paymentResult?.success` applied to the value a
variable holds: `undefined` (here `none`) is falsy. -/
def optSuccess : Option PaymentSimResult → Bool
  | none => false
  | some r => r.success

/-- The `processPayment` controller action.  `rand` is the `Math.random()`
draw of the credit-card branch and `now` the `Date.now()` stamp used for
synthetic transaction ids.  In the credit-card branch the source computes
`transactionId: paymentResult?.success ? ... : null` on the right-hand
side of the very assignment that first defines `paymentResult`, so the
optional chain reads the still-undefined variable: `priorResult` below is
that pre-assignment value. -/
def processPayment (order : Order) (paymentMethod : String)
    (paymentDetails : Option PaymentDetails) (rand : ℚ) (now : ℤ) :
    ProcessPaymentOutcome :=
  if order.paymentStatus == "paid" then
    ⟨.error ⟨"Order has already been paid", 400⟩, order⟩
  else if order.status == "cancelled" then
    ⟨.error ⟨"Cannot process payment for cancelled order", 400⟩, order⟩
  else
    let simResult : Except AppError PaymentSimResult :=
      if paymentMethod == "cash_on_delivery" then
        .ok ⟨true, none, "Payment will be collected on delivery"⟩
      else if paymentMethod == "credit_card" then
        match paymentDetails with
        | none => .error ⟨"Credit card details are required", 400⟩
        | some d =>
          if d.cardNumber == "" || d.cvv == "" then
            .error ⟨"Credit card details are required", 400⟩
          else
            let priorResult : Option PaymentSimResult := none
            .ok ⟨decide (rand > 1/10),
                 if optSuccess priorResult then some ("TXN_" ++ toString now) else none,
                 if optSuccess priorResult then "Payment processed successfully"
                 else "Payment failed"⟩
      else if paymentMethod == "bank_transfer" then
        .ok ⟨true, some ("BANK_" ++ toString now),
             "Bank transfer initiated. Please complete the transfer."⟩
      else if paymentMethod == "wallet" then
        if (10000 : ℚ) < order.total then
          .error ⟨"Insufficient wallet balance", 400⟩
        else
          .ok ⟨true, some ("WALLET_" ++ toString now), "Payment processed from wallet"⟩
      else
        .error ⟨"Invalid payment method", 400⟩
    match simResult with
    | .error e => ⟨.error e, order⟩
    | .ok pr =>
      if pr.success then
        let updated := { order with
          paymentStatus := "paid",
          paymentMethod := paymentMethod,
          paymentTransactionId := pr.transactionId,
          status := if order.status == "pending" then "confirmed" else order.status }
        match saveOrder updated with
        | .error e => ⟨.error ⟨e, 500⟩, order⟩
        | .ok saved => ⟨.ok pr, saved⟩
      else
        ⟨.ok pr, order⟩

/-- The refund window: 7 days in milliseconds. -/
def refundWindowMs : ℤ := 7 * 24 * 60 * 60 * 1000

/-- Outcome of the `processRefund` controller action. -/
structure RefundOutcome where
  result : Except AppError Unit
  order : Order
deriving Repr

/-- The `processRefund` controller action: only paid orders pass; a
delivered order is refused once `Date.now()` is past
`(deliveredAt || createdAt) + 7 days`; otherwise the order is saved with
both statuses set to `refunded` and the reason and timestamp recorded. -/
def processRefund (order : Order) (reason : String) (now : ℤ) : RefundOutcome :=
  if order.paymentStatus != "paid" then
    ⟨.error ⟨"Order has not been paid yet", 400⟩, order⟩
  else if order.status == "delivered" &&
          decide (now > order.deliveredAt.getD order.createdAt + refundWindowMs) then
    ⟨.error ⟨"Refund period has expired (7 days from delivery)", 400⟩, order⟩
  else
    match saveOrder { order with
        paymentStatus := "refunded", status := "refunded",
        refundReason := some reason, refundedAt := some now } with
    | .error e => ⟨.error ⟨e, 500⟩, order⟩
    | .ok saved => ⟨.ok (), saved⟩

/-! ### Helper lemmas -/

/-- `find?` commutes with a map that preserves the predicate. -/
theorem find?_map_pred {α : Type} (f : α → α) (p : α → Bool)
    (h : ∀ a, p (f a) = p a) :
    ∀ l : List α, (l.map f).find? p = (l.find? p).map f := by
  intro l
  induction l with
  | nil => rfl
  | cons a t ih =>
    simp only [List.map_cons, List.find?_cons, h a]
    cases p a <;> simp [ih]

/-- A product found by id indeed has that id. -/
theorem findProduct_id {catalog : Catalog} {pid : Nat} {p : Product}
    (h : findProduct catalog pid = some p) : p.id = pid := by
  have := List.find?_some h
  simpa using this

/-- Total ordered quantity the order lines carry for one product. -/
def orderQuantitySum (items : List OrderItem) (pid : Nat) : ℤ :=
  ((items.filter (fun i => i.product == pid)).map OrderItem.quantity).sum

/-- Restoring quantities rewrites each product found by id to carry its old
quantity plus the summed line quantities for that id. -/
theorem findProduct_restoreQuantities (pid : Nat) :
    ∀ (items : List OrderItem) (catalog : Catalog),
      findProduct (restoreQuantities catalog items) pid =
        (findProduct catalog pid).map
          (fun p => { p with quantity := p.quantity + orderQuantitySum items pid }) := by
  intro items
  induction items with
  | nil =>
    intro catalog
    simp only [restoreQuantities, List.foldl_nil, orderQuantitySum, List.filter_nil,
      List.map_nil, List.sum_nil, add_zero]
    cases findProduct catalog pid <;> rfl
  | cons item t ih =>
    intro catalog
    have hstep : findProduct (catalog.map (fun p =>
        if p.id == item.product then { p with quantity := p.quantity + item.quantity }
        else p)) pid =
        (findProduct catalog pid).map (fun p =>
          if p.id == item.product then { p with quantity := p.quantity + item.quantity }
          else p) := by
      refine find?_map_pred _ _ (fun a => ?_) catalog
      by_cases h : a.id == item.product <;> simp [h]
    simp only [restoreQuantities, List.foldl_cons] at *
    rw [ih, hstep]
    cases hfind : findProduct catalog pid with
    | none => rfl
    | some p =>
      have hid : p.id = pid := findProduct_id hfind
      simp only [Option.map_some, orderQuantitySum, List.filter_cons]
      by_cases hpid : item.product = pid
      · simp [hid, hpid, orderQuantitySum, add_assoc]
      · have hne : ¬ p.id = item.product := by
          rw [hid]
          exact fun h => hpid h.symm
        simp [hne, orderQuantitySum, hpid]

/-- A left fold accumulating `g` equals the starting value plus the sum of
the mapped list. -/
theorem foldl_add_eq_sum {α : Type} (g : α → ℚ) :
    ∀ (l : List α) (a : ℚ), l.foldl (fun acc x => acc + g x) a = a + (l.map g).sum
  | [], a => by simp
  | x :: t, a => by
    simp only [List.foldl_cons, List.map_cons, List.sum_cons]
    rw [foldl_add_eq_sum g t (a + g x), add_assoc]

/-- The subtotal is the sum of price times quantity over the cart lines. -/
theorem cartSubtotal_eq_sum (catalog : Catalog) (items : List CartItem) :
    cartSubtotal catalog items =
      (items.map (fun i => priceOf catalog i.product * (i.quantity : ℚ))).sum := by
  unfold cartSubtotal
  rw [foldl_add_eq_sum, zero_add]

/-- A successful order save stores the document unchanged and certifies
that the totals matched within tolerance. -/
theorem saveOrder_ok {o o' : Order} (h : saveOrder o = .ok o') :
    o' = o ∧ orderTotalMismatch o = false := by
  unfold saveOrder at h
  split at h
  next hc => cases h
  next hc =>
    refine ⟨?_, by simpa using hc⟩
    cases h
    rfl

/-- Evaluation of `createOrder` on the one-line demo cart (quantity 2 at
price 500): subtotal 1000, shipping 200, tax 50, total 1250, both statuses
pending. -/
theorem createOrder_demo_eval :
    (createOrder [(⟨1, "productA", 500, 10, "active"⟩ : Product)] ⟨[⟨1, 2⟩]⟩
        ⟨"a", "b", "c", "d", "e", "f", "g", "h"⟩ "cash_on_delivery" "" 0).result =
      .ok { items := [⟨1, 2, 500, 1000⟩],
            shippingAddress := ⟨"a", "b", "c", "d", "e", "f", "g", "h"⟩,
            paymentMethod := "cash_on_delivery",
            subtotal := 1000, shippingCost := 200, tax := 50, total := 1250,
            notes := "", status := "pending", paymentStatus := "pending",
            paymentTransactionId := none, createdAt := 0, deliveredAt := none,
            refundReason := none, refundedAt := none } := by
  have haddr : (!(⟨"a", "b", "c", "d", "e", "f", "g", "h"⟩ : ShippingAddress).complete) =
      false := by decide
  norm_num [createOrder, unavailableProducts, lineUnavailable, findProduct, cartSubtotal,
    priceOf, shippingCostOf, taxOf, saveOrder, orderTotalMismatch, haddr,
    List.find?, Order.mk.injEq, OrderItem.mk.injEq]

/-! ### Claim theorems -/

/-- C1: for every checkout where some cart line references a product that
is missing, not active, or has quantity-on-hand below the requested
quantity, `createOrder` fails with the insufficient-inventory error whose
message names every offending product, and on that failure no order is
created, the catalog is unchanged and the cart is unchanged. -/
theorem C1_createOrder_insufficientInventory
    (catalog : Catalog) (cart : Cart) (addr : ShippingAddress)
    (paymentMethod notes : String) (now : ℤ)
    (haddr : addr.complete = true)
    (hbad : ∃ item ∈ cart.items,
      findProduct catalog item.product = none ∨
      ∃ p, findProduct catalog item.product = some p ∧
           (p.status ≠ "active" ∨ p.quantity < item.quantity)) :
    (createOrder catalog cart addr paymentMethod notes now).result =
        .error ⟨"Some products are no longer available: " ++
          String.intercalate ", " (unavailableProducts catalog cart.items), 400⟩ ∧
    (createOrder catalog cart addr paymentMethod notes now).catalog = catalog ∧
    (createOrder catalog cart addr paymentMethod notes now).cart = cart ∧
    (∀ item ∈ cart.items, ∀ s, lineUnavailable catalog item = some s →
        s ∈ unavailableProducts catalog cart.items) := by
  obtain ⟨item, hmem, hcond⟩ := hbad
  have hline : lineUnavailable catalog item ≠ none := by
    unfold lineUnavailable
    rcases hcond with hnone | ⟨p, hp, hb⟩
    · rw [hnone]
      simp
    · rw [hp]
      by_cases hs : p.status = "active"
      · rcases hb with hb | hb
        · exact absurd hs hb
        · simp [hs, hb]
      · simp [hs]
  have hne : unavailableProducts catalog cart.items ≠ [] := by
    obtain ⟨s, hs⟩ := Option.ne_none_iff_exists'.mp hline
    exact List.ne_nil_of_mem (List.mem_filterMap.mpr ⟨item, hmem, hs⟩)
  have hempty : cart.items.isEmpty = false := by
    cases h : cart.items with
    | nil => exact absurd h (List.ne_nil_of_mem hmem)
    | cons a l => rfl
  refine ⟨?_, ?_, ?_, fun it _ s hs => List.mem_filterMap.mpr ⟨it, by assumption, hs⟩⟩ <;>
    simp [createOrder, haddr, hempty, hne]

/-- C1 witness: a one-line cart requesting 2 units of a product with only
1 on hand hits the insufficient-inventory branch. -/
theorem C1_witness :
    ((createOrder [(⟨1, "Widget", 500, 1, "active"⟩ : Product)] ⟨[⟨1, 2⟩]⟩
        ⟨"a", "b", "c", "d", "e", "f", "g", "h"⟩ "cash_on_delivery" "" 0).result =
      .error ⟨"Some products are no longer available: " ++
        String.intercalate ", "
          (unavailableProducts [⟨1, "Widget", 500, 1, "active"⟩] [⟨1, 2⟩]), 400⟩) ∧
    (createOrder [(⟨1, "Widget", 500, 1, "active"⟩ : Product)] ⟨[⟨1, 2⟩]⟩
        ⟨"a", "b", "c", "d", "e", "f", "g", "h"⟩ "cash_on_delivery" "" 0).catalog =
      [⟨1, "Widget", 500, 1, "active"⟩] ∧
    (createOrder [(⟨1, "Widget", 500, 1, "active"⟩ : Product)] ⟨[⟨1, 2⟩]⟩
        ⟨"a", "b", "c", "d", "e", "f", "g", "h"⟩ "cash_on_delivery" "" 0).cart =
      ⟨[⟨1, 2⟩]⟩ ∧
    (∀ item ∈ [(⟨1, 2⟩ : CartItem)], ∀ s,
        lineUnavailable [⟨1, "Widget", 500, 1, "active"⟩] item = some s →
        s ∈ unavailableProducts [⟨1, "Widget", 500, 1, "active"⟩] [⟨1, 2⟩]) :=
  C1_createOrder_insufficientInventory _ _ _ _ _ _ (by decide)
    ⟨⟨1, 2⟩, by decide,
     Or.inr ⟨⟨1, "Widget", 500, 1, "active"⟩, by decide, Or.inr (by decide)⟩⟩

/-- C2: every order `createOrder` creates carries
subtotal = Σ price × quantity over the cart lines,
shippingCost = 0 when the subtotal exceeds 5000 and 200 otherwise,
tax = round(subtotal × 5%), total = subtotal + shippingCost + tax, and a
pending/pending status pair; in particular the one-line demo cart
(quantity 2, price 500) yields 1000 / 200 / 50 / 1250. -/
theorem C2_createOrder_totals
    (catalog : Catalog) (cart : Cart) (addr : ShippingAddress)
    (paymentMethod notes : String) (now : ℤ) (o : Order)
    (hok : (createOrder catalog cart addr paymentMethod notes now).result = .ok o) :
    (o.subtotal = (cart.items.map (fun i => priceOf catalog i.product * (i.quantity : ℚ))).sum ∧
     o.shippingCost = (if o.subtotal > 5000 then (0 : ℚ) else 200) ∧
     o.tax = ((round (o.subtotal * (5/100)) : ℤ) : ℚ) ∧
     o.total = o.subtotal + o.shippingCost + o.tax ∧
     o.status = "pending" ∧ o.paymentStatus = "pending") ∧
    (createOrder [(⟨1, "productA", 500, 10, "active"⟩ : Product)] ⟨[⟨1, 2⟩]⟩
        ⟨"a", "b", "c", "d", "e", "f", "g", "h"⟩ "cash_on_delivery" "" 0).result =
      .ok { items := [⟨1, 2, 500, 1000⟩],
            shippingAddress := ⟨"a", "b", "c", "d", "e", "f", "g", "h"⟩,
            paymentMethod := "cash_on_delivery",
            subtotal := 1000, shippingCost := 200, tax := 50, total := 1250,
            notes := "", status := "pending", paymentStatus := "pending",
            paymentTransactionId := none, createdAt := 0, deliveredAt := none,
            refundReason := none, refundedAt := none } := by
  refine ⟨?_, createOrder_demo_eval⟩
  unfold createOrder at hok
  split at hok
  next => exact Except.noConfusion hok
  next =>
    split at hok
    next => exact Except.noConfusion hok
    next =>
      split at hok
      next => exact Except.noConfusion hok
      next =>
        simp only [] at hok
        split at hok
        next e heq => exact Except.noConfusion hok
        next saved heq =>
          obtain ⟨hsaved, -⟩ := saveOrder_ok heq
          have ho : o = saved := (Except.ok.inj hok).symm
          rw [ho, hsaved]
          refine ⟨cartSubtotal_eq_sum catalog cart.items, rfl, rfl, rfl, rfl, ite_self _⟩

/-- C2 witness: the demo checkout instantiates the totals theorem. -/
theorem C2_witness :
    (((1000 : ℚ) =
        (([⟨1, 2⟩] : List CartItem).map (fun i =>
          priceOf [⟨1, "productA", 500, 10, "active"⟩] i.product * (i.quantity : ℚ))).sum ∧
      (200 : ℚ) = (if (1000 : ℚ) > 5000 then (0 : ℚ) else 200) ∧
      (50 : ℚ) = ((round ((1000 : ℚ) * (5/100)) : ℤ) : ℚ) ∧
      (1250 : ℚ) = (1000 : ℚ) + 200 + 50 ∧
      "pending" = "pending" ∧ "pending" = "pending") ∧
    (createOrder [(⟨1, "productA", 500, 10, "active"⟩ : Product)] ⟨[⟨1, 2⟩]⟩
        ⟨"a", "b", "c", "d", "e", "f", "g", "h"⟩ "cash_on_delivery" "" 0).result =
      .ok { items := [⟨1, 2, 500, 1000⟩],
            shippingAddress := ⟨"a", "b", "c", "d", "e", "f", "g", "h"⟩,
            paymentMethod := "cash_on_delivery",
            subtotal := 1000, shippingCost := 200, tax := 50, total := 1250,
            notes := "", status := "pending", paymentStatus := "pending",
            paymentTransactionId := none, createdAt := 0, deliveredAt := none,
            refundReason := none, refundedAt := none }) :=
  C2_createOrder_totals [⟨1, "productA", 500, 10, "active"⟩] ⟨[⟨1, 2⟩]⟩
    ⟨"a", "b", "c", "d", "e", "f", "g", "h"⟩ "cash_on_delivery" "" 0 _
    createOrder_demo_eval

/-- C3: at every persistence of an order the invariant
subtotal + shippingCost + tax = total holds within a tolerance of 0.01: a
passing save stores the order unchanged (never silently corrected) and
certifies the invariant, and a mismatch beyond the tolerance fails the
save with the validation error. -/
theorem C3_order_save_total_invariant (o o' : Order) :
    (saveOrder o = .ok o' →
      o' = o ∧ |o.subtotal + o.shippingCost + o.tax - o.total| ≤ 1/100) ∧
    (|o.subtotal + o.shippingCost + o.tax - o.total| > 1/100 →
      saveOrder o = .error "Order total does not match calculated total") := by
  constructor
  · intro h
    obtain ⟨h1, h2⟩ := saveOrder_ok h
    refine ⟨h1, ?_⟩
    have h3 : ¬(|o.subtotal + o.shippingCost + o.tax - o.total| > 1/100) := by
      simpa [orderTotalMismatch] using h2
    exact le_of_not_lt h3
  · intro h
    have hb : orderTotalMismatch o = true := by simpa [orderTotalMismatch] using h
    simp [saveOrder, hb]

/-- Evaluation lemma: an order whose totals are all zero saves
unchanged. -/
theorem saveOrder_zero_eval :
    saveOrder { items := [], shippingAddress := ⟨"a", "b", "c", "d", "e", "f", "g", "h"⟩,
                paymentMethod := "cash_on_delivery",
                subtotal := 0, shippingCost := 0, tax := 0, total := 0,
                notes := "", status := "pending", paymentStatus := "pending",
                paymentTransactionId := none, createdAt := 0, deliveredAt := none,
                refundReason := none, refundedAt := none } =
      .ok { items := [], shippingAddress := ⟨"a", "b", "c", "d", "e", "f", "g", "h"⟩,
            paymentMethod := "cash_on_delivery",
            subtotal := 0, shippingCost := 0, tax := 0, total := 0,
            notes := "", status := "pending", paymentStatus := "pending",
            paymentTransactionId := none, createdAt := 0, deliveredAt := none,
            refundReason := none, refundedAt := none } := by
  norm_num [saveOrder, orderTotalMismatch]

/-- C3 witness: the zero-totals order passes the save re-validation. -/
theorem C3_witness :
    ({ items := [], shippingAddress := (⟨"a", "b", "c", "d", "e", "f", "g", "h"⟩ :
          ShippingAddress),
       paymentMethod := "cash_on_delivery",
       subtotal := 0, shippingCost := 0, tax := 0, total := 0,
       notes := "", status := "pending", paymentStatus := "pending",
       paymentTransactionId := none, createdAt := 0, deliveredAt := none,
       refundReason := none, refundedAt := none } : Order) =
      { items := [], shippingAddress := ⟨"a", "b", "c", "d", "e", "f", "g", "h"⟩,
        paymentMethod := "cash_on_delivery",
        subtotal := 0, shippingCost := 0, tax := 0, total := 0,
        notes := "", status := "pending", paymentStatus := "pending",
        paymentTransactionId := none, createdAt := 0, deliveredAt := none,
        refundReason := none, refundedAt := none } ∧
    |(0 : ℚ) + 0 + 0 - 0| ≤ 1/100 :=
  (C3_order_save_total_invariant _ _).1 saveOrder_zero_eval

/-- A successful cancellation implies the order was cancellable and its
totals passed the save re-validation. -/
theorem cancelOrder_ok_elim {catalog : Catalog} {order : Order}
    (h : (cancelOrder catalog order).result = .ok ()) :
    (["pending", "confirmed"] : List String).contains order.status = true ∧
    orderTotalMismatch order = false := by
  unfold cancelOrder at h
  split at h
  next hc => exact Except.noConfusion h
  next hc =>
    have hcontains : (["pending", "confirmed"] : List String).contains order.status = true := by
      revert hc
      cases (["pending", "confirmed"] : List String).contains order.status <;> simp
    refine ⟨hcontains, ?_⟩
    split at h
    next e heq => exact Except.noConfusion h
    next saved heq => exact (saveOrder_ok heq).2

/-- Evaluation of `cancelOrder` when the status guard rejects. -/
theorem cancelOrder_rejected {catalog : Catalog} {order : Order}
    (h : (["pending", "confirmed"] : List String).contains order.status = false) :
    cancelOrder catalog order =
      ⟨.error ⟨"Order cannot be cancelled at this stage", 400⟩, order, catalog⟩ := by
  unfold cancelOrder
  rw [h]
  rfl

/-- Evaluation of `cancelOrder` when the status guard passes and the
order totals are consistent. -/
theorem cancelOrder_accepted {catalog : Catalog} {order : Order}
    (h : (["pending", "confirmed"] : List String).contains order.status = true)
    (hv : orderTotalMismatch order = false) :
    cancelOrder catalog order =
      ⟨.ok (), { order with status := "cancelled", paymentStatus := "refunded" },
       restoreQuantities catalog order.items⟩ := by
  have hv' : ¬(|order.subtotal + order.shippingCost + order.tax - order.total| > 1/100) := by
    simpa [orderTotalMismatch] using hv
  have hv2 : ¬(100⁻¹ < |order.subtotal + order.shippingCost + order.tax - order.total|) := by
    simpa using hv'
  unfold cancelOrder
  rw [h]
  simp only [Bool.not_true, Bool.false_eq_true, if_false, saveOrder, orderTotalMismatch]
  rw [if_neg (by simpa using hv2)]

/-- C4: `cancelOrder` succeeds only from `pending` or `confirmed` (any
other status, e.g. `shipped`, yields the invalid-transition error with
order and catalog untouched); on success every catalog product gains back
the summed ordered quantity of its lines exactly once and the order
becomes `cancelled`/`refunded`; and a repeated cancel is rejected without
touching the catalog again. -/
theorem C4_cancelOrder_spec (catalog : Catalog) (order : Order) :
    ((cancelOrder catalog order).result = .ok () →
      order.status = "pending" ∨ order.status = "confirmed") ∧
    (order.status ≠ "pending" ∧ order.status ≠ "confirmed" →
      cancelOrder catalog order =
        ⟨.error ⟨"Order cannot be cancelled at this stage", 400⟩, order, catalog⟩) ∧
    ((cancelOrder catalog order).result = .ok () →
      (∀ pid p, findProduct catalog pid = some p →
        findProduct (cancelOrder catalog order).catalog pid =
          some { p with quantity := p.quantity + orderQuantitySum order.items pid }) ∧
      (cancelOrder catalog order).order.status = "cancelled" ∧
      (cancelOrder catalog order).order.paymentStatus = "refunded") ∧
    ((cancelOrder catalog order).result = .ok () →
      cancelOrder (cancelOrder catalog order).catalog (cancelOrder catalog order).order =
        ⟨.error ⟨"Order cannot be cancelled at this stage", 400⟩,
         (cancelOrder catalog order).order, (cancelOrder catalog order).catalog⟩) := by
  refine ⟨?_, ?_, ?_, ?_⟩
  · intro h
    have := (cancelOrder_ok_elim h).1
    simpa using this
  · intro h
    apply cancelOrder_rejected
    simp [h.1, h.2]
  · intro h
    obtain ⟨hc, hv⟩ := cancelOrder_ok_elim h
    rw [cancelOrder_accepted hc hv]
    refine ⟨fun pid p hp => ?_, rfl, rfl⟩
    show findProduct (restoreQuantities catalog order.items) pid = _
    rw [findProduct_restoreQuantities, hp]
    rfl
  · intro h
    obtain ⟨hc, hv⟩ := cancelOrder_ok_elim h
    rw [cancelOrder_accepted hc hv]
    apply cancelOrder_rejected
    rfl

/-- Evaluation lemma: cancelling the pending demo order succeeds. -/
theorem cancelOrder_demo_eval :
    (cancelOrder [(⟨1, "Widget", 500, 3, "active"⟩ : Product)]
        { items := [⟨1, 2, 500, 1000⟩],
          shippingAddress := ⟨"a", "b", "c", "d", "e", "f", "g", "h"⟩,
          paymentMethod := "cash_on_delivery",
          subtotal := 1000, shippingCost := 200, tax := 50, total := 1250,
          notes := "", status := "pending", paymentStatus := "pending",
          paymentTransactionId := none, createdAt := 0, deliveredAt := none,
          refundReason := none, refundedAt := none }).result = .ok () := by
  rw [cancelOrder_accepted (by decide) (by norm_num [orderTotalMismatch])]

/-- C4 witness: cancelling a pending one-line order restores the stock
and marks the order cancelled and refunded. -/
theorem C4_witness :
    (∀ pid p, findProduct [(⟨1, "Widget", 500, 3, "active"⟩ : Product)] pid = some p →
      findProduct (cancelOrder [(⟨1, "Widget", 500, 3, "active"⟩ : Product)]
          { items := [⟨1, 2, 500, 1000⟩],
            shippingAddress := ⟨"a", "b", "c", "d", "e", "f", "g", "h"⟩,
            paymentMethod := "cash_on_delivery",
            subtotal := 1000, shippingCost := 200, tax := 50, total := 1250,
            notes := "", status := "pending", paymentStatus := "pending",
            paymentTransactionId := none, createdAt := 0, deliveredAt := none,
            refundReason := none, refundedAt := none }).catalog pid =
        some { p with quantity := p.quantity +
          orderQuantitySum [⟨1, 2, 500, 1000⟩] pid }) ∧
    (cancelOrder [(⟨1, "Widget", 500, 3, "active"⟩ : Product)]
        { items := [⟨1, 2, 500, 1000⟩],
          shippingAddress := ⟨"a", "b", "c", "d", "e", "f", "g", "h"⟩,
          paymentMethod := "cash_on_delivery",
          subtotal := 1000, shippingCost := 200, tax := 50, total := 1250,
          notes := "", status := "pending", paymentStatus := "pending",
          paymentTransactionId := none, createdAt := 0, deliveredAt := none,
          refundReason := none, refundedAt := none }).order.status = "cancelled" ∧
    (cancelOrder [(⟨1, "Widget", 500, 3, "active"⟩ : Product)]
        { items := [⟨1, 2, 500, 1000⟩],
          shippingAddress := ⟨"a", "b", "c", "d", "e", "f", "g", "h"⟩,
          paymentMethod := "cash_on_delivery",
          subtotal := 1000, shippingCost := 200, tax := 50, total := 1250,
          notes := "", status := "pending", paymentStatus := "pending",
          paymentTransactionId := none, createdAt := 0, deliveredAt := none,
          refundReason := none, refundedAt := none }).order.paymentStatus = "refunded" :=
  (C4_cancelOrder_spec _ _).2.2.1 cancelOrder_demo_eval

/-- Every run of `processPayment` either fails with a typed error leaving
the order untouched, returns a declined simulated result leaving the
order untouched, or returns a successful simulated result having marked
the order paid, recorded method and transaction id, and advanced a
pending status to confirmed. -/
theorem processPayment_shape (order : Order) (method : String)
    (details : Option PaymentDetails) (rand : ℚ) (now : ℤ) :
    (∃ e, processPayment order method details rand now = ⟨.error e, order⟩) ∨
    (∃ pr, pr.success = false ∧
      processPayment order method details rand now = ⟨.ok pr, order⟩) ∨
    (∃ pr, pr.success = true ∧
      processPayment order method details rand now =
        ⟨.ok pr,
         { order with
             paymentStatus := "paid",
             paymentMethod := method,
             paymentTransactionId := pr.transactionId,
             status := if order.status == "pending" then "confirmed" else order.status }⟩) := by
  generalize hout : processPayment order method details rand now = out
  unfold processPayment at hout
  split at hout
  next => exact Or.inl ⟨_, hout.symm⟩
  next =>
    split at hout
    next => exact Or.inl ⟨_, hout.symm⟩
    next =>
      simp only [] at hout
      split at hout
      next e heq => exact Or.inl ⟨_, hout.symm⟩
      next pr heq =>
        split at hout
        next hs =>
          split at hout
          next e heq2 => exact Or.inl ⟨_, hout.symm⟩
          next saved heq2 =>
            refine Or.inr (Or.inr ⟨pr, hs, ?_⟩)
            rw [← hout, (saveOrder_ok heq2).1]
        next hs =>
          exact Or.inr (Or.inl ⟨pr, by simpa using hs, hout.symm⟩)

/-- C6: `processPayment` fails with the already-paid error when the order
is paid, fails with the cancelled-order error when the (unpaid) order is
cancelled, and on any successful payment marks the order paid, records
the method and the simulated transaction id, and advances a pending
status to confirmed while leaving a non-pending status unchanged. -/
theorem C6_processPayment_spec (order : Order) (method : String)
    (details : Option PaymentDetails) (rand : ℚ) (now : ℤ) :
    (order.paymentStatus = "paid" →
      processPayment order method details rand now =
        ⟨.error ⟨"Order has already been paid", 400⟩, order⟩) ∧
    (order.paymentStatus ≠ "paid" → order.status = "cancelled" →
      processPayment order method details rand now =
        ⟨.error ⟨"Cannot process payment for cancelled order", 400⟩, order⟩) ∧
    (∀ pr, (processPayment order method details rand now).result = .ok pr →
      pr.success = true →
      (processPayment order method details rand now).order.paymentStatus = "paid" ∧
      (processPayment order method details rand now).order.paymentMethod = method ∧
      (processPayment order method details rand now).order.paymentTransactionId =
        pr.transactionId ∧
      (processPayment order method details rand now).order.status =
        (if order.status = "pending" then "confirmed" else order.status)) := by
  refine ⟨?_, ?_, ?_⟩
  · intro h
    have hb : (order.paymentStatus == "paid") = true := by simp [h]
    unfold processPayment
    rw [hb]
    rfl
  · intro h1 h2
    have hb1 : (order.paymentStatus == "paid") = false := by simp [h1]
    have hb2 : (order.status == "cancelled") = true := by simp [h2]
    unfold processPayment
    rw [hb1, hb2]
    rfl
  · intro pr hok hsucc
    rcases processPayment_shape order method details rand now with
      ⟨e, heq⟩ | ⟨pr0, hf, heq⟩ | ⟨pr0, ht, heq⟩
    · rw [heq] at hok
      exact Except.noConfusion hok
    · rw [heq] at hok
      have : pr0 = pr := Except.ok.inj hok
      rw [this] at hf
      rw [hsucc] at hf
      exact Bool.noConfusion hf
    · rw [heq] at hok
      have hpr : pr0 = pr := Except.ok.inj hok
      rw [heq, hpr]
      refine ⟨rfl, rfl, rfl, ?_⟩
      by_cases h : order.status = "pending" <;> simp [h]

/-- C6 witness: paying a pending, unpaid zero-totals order by cash on
delivery succeeds and confirms the order. -/
theorem C6_witness :
    (processPayment
        { items := [], shippingAddress := ⟨"a", "b", "c", "d", "e", "f", "g", "h"⟩,
          paymentMethod := "cash_on_delivery",
          subtotal := 0, shippingCost := 0, tax := 0, total := 0,
          notes := "", status := "pending", paymentStatus := "pending",
          paymentTransactionId := none, createdAt := 0, deliveredAt := none,
          refundReason := none, refundedAt := none }
        "cash_on_delivery" none 0 42).order.paymentStatus = "paid" :=
  ((C6_processPayment_spec _ "cash_on_delivery" none 0 42).2.2
    ⟨true, none, "Payment will be collected on delivery"⟩
    (by norm_num [processPayment, saveOrder, orderTotalMismatch]; rfl) rfl).1

/-- C7: the credit-card branch of `processPayment` computes
`transactionId: paymentResult?.success ? ... : null` while `paymentResult`
is still undefined, so even on a successful simulated draw (here
rand = 1/2 > 0.1) the returned result carries `success = true` but a null
transaction id and the message `Payment failed`, and the order is marked
paid with a null transaction id; on a failing draw (rand = 1/20 ≤ 0.1) a
failure result is returned and the order is not mutated. -/
theorem C7_creditcard_transactionId_bug :
    (processPayment
        { items := [], shippingAddress := ⟨"a", "b", "c", "d", "e", "f", "g", "h"⟩,
          paymentMethod := "cash_on_delivery",
          subtotal := 0, shippingCost := 0, tax := 0, total := 0,
          notes := "", status := "pending", paymentStatus := "pending",
          paymentTransactionId := none, createdAt := 0, deliveredAt := none,
          refundReason := none, refundedAt := none }
        "credit_card" (some ⟨"4111111111111111", "123"⟩) (1/2) 99).result =
      .ok ⟨true, none, "Payment failed"⟩ ∧
    (processPayment
        { items := [], shippingAddress := ⟨"a", "b", "c", "d", "e", "f", "g", "h"⟩,
          paymentMethod := "cash_on_delivery",
          subtotal := 0, shippingCost := 0, tax := 0, total := 0,
          notes := "", status := "pending", paymentStatus := "pending",
          paymentTransactionId := none, createdAt := 0, deliveredAt := none,
          refundReason := none, refundedAt := none }
        "credit_card" (some ⟨"4111111111111111", "123"⟩) (1/2) 99).order.paymentStatus =
      "paid" ∧
    (processPayment
        { items := [], shippingAddress := ⟨"a", "b", "c", "d", "e", "f", "g", "h"⟩,
          paymentMethod := "cash_on_delivery",
          subtotal := 0, shippingCost := 0, tax := 0, total := 0,
          notes := "", status := "pending", paymentStatus := "pending",
          paymentTransactionId := none, createdAt := 0, deliveredAt := none,
          refundReason := none, refundedAt := none }
        "credit_card" (some ⟨"4111111111111111", "123"⟩) (1/2) 99).order.paymentTransactionId =
      none ∧
    (processPayment
        { items := [], shippingAddress := ⟨"a", "b", "c", "d", "e", "f", "g", "h"⟩,
          paymentMethod := "cash_on_delivery",
          subtotal := 0, shippingCost := 0, tax := 0, total := 0,
          notes := "", status := "pending", paymentStatus := "pending",
          paymentTransactionId := none, createdAt := 0, deliveredAt := none,
          refundReason := none, refundedAt := none }
        "credit_card" (some ⟨"4111111111111111", "123"⟩) (1/20) 99).result =
      .ok ⟨false, none, "Payment failed"⟩ ∧
    (processPayment
        { items := [], shippingAddress := ⟨"a", "b", "c", "d", "e", "f", "g", "h"⟩,
          paymentMethod := "cash_on_delivery",
          subtotal := 0, shippingCost := 0, tax := 0, total := 0,
          notes := "", status := "pending", paymentStatus := "pending",
          paymentTransactionId := none, createdAt := 0, deliveredAt := none,
          refundReason := none, refundedAt := none }
        "credit_card" (some ⟨"4111111111111111", "123"⟩) (1/20) 99).order =
      { items := [], shippingAddress := ⟨"a", "b", "c", "d", "e", "f", "g", "h"⟩,
        paymentMethod := "cash_on_delivery",
        subtotal := 0, shippingCost := 0, tax := 0, total := 0,
        notes := "", status := "pending", paymentStatus := "pending",
        paymentTransactionId := none, createdAt := 0, deliveredAt := none,
        refundReason := none, refundedAt := none } := by
  have hd1 : decide ((1/2 : ℚ) > 1/10) = true := decide_eq_true (by norm_num)
  have hd2 : decide ((1/20 : ℚ) > 1/10) = false := decide_eq_false (by norm_num)
  refine ⟨?_, ?_, ?_, ?_, ?_⟩ <;>
    (norm_num [processPayment, optSuccess, saveOrder, orderTotalMismatch, hd1, hd2]; rfl)

/-- C8: `processRefund` fails unless the order is paid; for a paid
delivered order it fails with the expired-window error once more than 7
days have elapsed since delivery; otherwise it marks both statuses
refunded and records the reason and timestamp; in particular an order
delivered 8 days ago is refused and one delivered 6 days ago succeeds. -/
theorem C8_processRefund_spec (order : Order) (reason : String) (now : ℤ) :
    (order.paymentStatus ≠ "paid" →
      processRefund order reason now =
        ⟨.error ⟨"Order has not been paid yet", 400⟩, order⟩) ∧
    (order.paymentStatus = "paid" → order.status = "delivered" →
      now > order.deliveredAt.getD order.createdAt + refundWindowMs →
      processRefund order reason now =
        ⟨.error ⟨"Refund period has expired (7 days from delivery)", 400⟩, order⟩) ∧
    (order.paymentStatus = "paid" →
      (order.status ≠ "delivered" ∨
        now ≤ order.deliveredAt.getD order.createdAt + refundWindowMs) →
      orderTotalMismatch order = false →
      processRefund order reason now =
        ⟨.ok (),
         { order with
             paymentStatus := "refunded",
             status := "refunded",
             refundReason := some reason,
             refundedAt := some now }⟩) ∧
    (processRefund
        { items := [], shippingAddress := ⟨"a", "b", "c", "d", "e", "f", "g", "h"⟩,
          paymentMethod := "cash_on_delivery",
          subtotal := 0, shippingCost := 0, tax := 0, total := 0,
          notes := "", status := "delivered", paymentStatus := "paid",
          paymentTransactionId := none, createdAt := 0, deliveredAt := some 0,
          refundReason := none, refundedAt := none }
        "too late" (8 * 24 * 60 * 60 * 1000)).result =
      .error ⟨"Refund period has expired (7 days from delivery)", 400⟩ ∧
    (processRefund
        { items := [], shippingAddress := ⟨"a", "b", "c", "d", "e", "f", "g", "h"⟩,
          paymentMethod := "cash_on_delivery",
          subtotal := 0, shippingCost := 0, tax := 0, total := 0,
          notes := "", status := "delivered", paymentStatus := "paid",
          paymentTransactionId := none, createdAt := 0, deliveredAt := some 0,
          refundReason := none, refundedAt := none }
        "in time" (6 * 24 * 60 * 60 * 1000)).result = .ok () := by
  have gen1 : ∀ (o : Order) (r : String) (n : ℤ), o.paymentStatus ≠ "paid" →
      processRefund o r n = ⟨.error ⟨"Order has not been paid yet", 400⟩, o⟩ := by
    intro o r n h
    have hb : (o.paymentStatus != "paid") = true := by simpa [bne_iff_ne] using h
    unfold processRefund
    rw [hb]
    rfl
  have gen2 : ∀ (o : Order) (r : String) (n : ℤ), o.paymentStatus = "paid" →
      o.status = "delivered" → n > o.deliveredAt.getD o.createdAt + refundWindowMs →
      processRefund o r n =
        ⟨.error ⟨"Refund period has expired (7 days from delivery)", 400⟩, o⟩ := by
    intro o r n h1 h2 h3
    have hb1 : (o.paymentStatus != "paid") = false := by simp [h1]
    have hb2 : (o.status == "delivered" &&
        decide (n > o.deliveredAt.getD o.createdAt + refundWindowMs)) = true := by
      simp only [h2, beq_self_eq_true, Bool.true_and, decide_eq_true_eq]
      exact h3
    unfold processRefund
    rw [hb1, hb2]
    rfl
  have gen3 : ∀ (o : Order) (r : String) (n : ℤ), o.paymentStatus = "paid" →
      (o.status ≠ "delivered" ∨ n ≤ o.deliveredAt.getD o.createdAt + refundWindowMs) →
      orderTotalMismatch o = false →
      processRefund o r n =
        ⟨.ok (),
         { o with
             paymentStatus := "refunded",
             status := "refunded",
             refundReason := some r,
             refundedAt := some n }⟩ := by
    intro o r n h1 h2 hv
    have hb1 : (o.paymentStatus != "paid") = false := by simp [h1]
    have hb2 : (o.status == "delivered" &&
        decide (n > o.deliveredAt.getD o.createdAt + refundWindowMs)) = false := by
      rcases h2 with h2 | h2
      · simp [h2]
      · simp [not_lt.mpr h2]
    have hv' : ¬(|o.subtotal + o.shippingCost + o.tax - o.total| > 1/100) := by
      simpa [orderTotalMismatch] using hv
    have hv2 : ¬(100⁻¹ < |o.subtotal + o.shippingCost + o.tax - o.total|) := by
      simpa using hv'
    unfold processRefund
    rw [hb1, hb2]
    simp only [Bool.false_eq_true, if_false, saveOrder, orderTotalMismatch]
    rw [if_neg (by simpa using hv2)]
  refine ⟨gen1 order reason now, gen2 order reason now, gen3 order reason now, ?_, ?_⟩
  · rw [gen2 _ "too late" (8 * 24 * 60 * 60 * 1000) rfl rfl (by decide)]
  · rw [gen3 _ "in time" (6 * 24 * 60 * 60 * 1000) rfl (Or.inr (by decide))
      (by norm_num [orderTotalMismatch])]

/-- C8 witness: a paid order delivered at time 0 is refused a refund 8
days later. -/
theorem C8_witness :
    processRefund
        { items := [], shippingAddress := ⟨"a", "b", "c", "d", "e", "f", "g", "h"⟩,
          paymentMethod := "cash_on_delivery",
          subtotal := 0, shippingCost := 0, tax := 0, total := 0,
          notes := "", status := "delivered", paymentStatus := "paid",
          paymentTransactionId := none, createdAt := 0, deliveredAt := some 0,
          refundReason := none, refundedAt := none }
        "too late" (8 * 24 * 60 * 60 * 1000) =
      ⟨.error ⟨"Refund period has expired (7 days from delivery)", 400⟩,
       { items := [], shippingAddress := ⟨"a", "b", "c", "d", "e", "f", "g", "h"⟩,
         paymentMethod := "cash_on_delivery",
         subtotal := 0, shippingCost := 0, tax := 0, total := 0,
         notes := "", status := "delivered", paymentStatus := "paid",
         paymentTransactionId := none, createdAt := 0, deliveredAt := some 0,
         refundReason := none, refundedAt := none }⟩ :=
  (C8_processRefund_spec _ "too late" (8 * 24 * 60 * 60 * 1000)).2.1 rfl rfl (by decide)

/-- C9 (amended): the product status enum accepts exactly
{active, revoked, pending, draft}: a product that persists successfully
has its status in that set, and persisting a product whose status fails
the enum validation is rejected. -/
theorem C9_product_status_enum (p : Product) :
    ((∃ p', saveProduct p = .ok p') →
      p.status = "active" ∨ p.status = "revoked" ∨ p.status = "pending" ∨
      p.status = "draft") ∧
    (validProductStatus p.status = false → ∃ e, saveProduct p = .error e) := by
  constructor
  · rintro ⟨p', hp⟩
    unfold saveProduct at hp
    split at hp
    next hc => cases hp
    next hc =>
      have hv : validProductStatus p.status = true := by
        revert hc
        cases validProductStatus p.status <;> simp
      simpa [validProductStatus, productStatusEnum] using hv
  · intro h
    refine ⟨p.status ++ " is not a valid enum value for path status", ?_⟩
    unfold saveProduct
    rw [h]
    rfl

/-- C9 counterexample: `suspended` is in the status set the spec claims
for products, yet the product schema's enum rejects persisting a product
with that status (the code's enum is active/revoked/pending/draft;
`suspended` belongs to the user schema). -/
theorem C9_counterexample :
    "suspended" ∈ specProductStatusSet ∧
    saveProduct ⟨9, "Gizmo", 10, 1, "suspended"⟩ =
      .error "suspended is not a valid enum value for path status" :=
  ⟨by decide, rfl⟩

/-- C9 witness: an active product persists, and its status is in the
enum. -/
theorem C9_witness :
    ("active" : String) = "active" ∨ ("active" : String) = "revoked" ∨
    ("active" : String) = "pending" ∨ ("active" : String) = "draft" :=
  (C9_product_status_enum ⟨1, "A", 5, 3, "active"⟩).1 ⟨⟨1, "A", 5, 3, "active"⟩, rfl⟩

/-- C10: an addToCart request naming a product that exists with status
active but zero quantity-on-hand fails with the 404 not-found outcome
(`Product not found or out of stock`) rather than an out-of-stock
rejection, because the product lookup itself filters on quantity > 0. -/
theorem C10_addToCart_activeZeroStock_notFound
    (catalog : Catalog) (cart : Cart) (pid : Nat) (q : ℤ) (p : Product)
    (hq1 : 1 ≤ q) (hq2 : q ≤ 100)
    (hnodup : (catalog.map Product.id).Nodup)
    (hmem : p ∈ catalog) (hid : p.id = pid)
    (hactive : p.status = "active") (hzero : p.quantity = 0) :
    addToCart catalog cart pid q =
      ⟨.error ⟨"Product not found or out of stock", 404⟩, cart⟩ := by
  have hguard : (decide (q < 1) || decide (q > 100)) = false := by
    simp only [Bool.or_eq_false_iff, decide_eq_false_iff_not, not_lt]
    exact ⟨hq1, hq2⟩
  have hfind : findAvailableProduct catalog pid = none := by
    unfold findAvailableProduct
    rw [List.find?_eq_none]
    intro x hx
    simp only [Bool.and_eq_true, beq_iff_eq, decide_eq_true_eq, not_and]
    intro hxid
    have hxp : x = p := List.inj_on_of_nodup_map hnodup hx hmem (by rw [hxid.1, hid])
    rw [hxp, hzero]
    exact lt_irrefl 0
  unfold addToCart
  rw [hguard, hfind]
  rfl

/-- C10 witness: one unit of an active product with zero stock yields the
404 not-found outcome. -/
theorem C10_witness :
    addToCart [(⟨3, "Empty", 20, 0, "active"⟩ : Product)] ⟨[]⟩ 3 1 =
      ⟨.error ⟨"Product not found or out of stock", 404⟩, ⟨[]⟩⟩ :=
  C10_addToCart_activeZeroStock_notFound [⟨3, "Empty", 20, 0, "active"⟩] ⟨[]⟩ 3 1
    ⟨3, "Empty", 20, 0, "active"⟩ (by decide) (by decide) (by decide) (by decide)
    rfl rfl rfl

end Matab
